import Mathlib

/-!
Verification of the foodgram backend's short-link codec, shopping-cart
download, relation management (favorite / shopping cart / follow) and
recipe write validation, as shallow Lean embeddings of the Python source
in `backend/recipes/views.py`, `backend/core/utils.py`,
`backend/core/fields.py`, `backend/users/views.py` and
`backend/recipes/serializers.py`.
-/

namespace Foodgram

/-- The 62-symbol alphabet `BASE62` from `recipes/views.py` /
`core/fields.py`. -/
def BASE62 : String :=
  "0123456789abcdefghijklmnopqrstuvwxyzABCDEFGHIJKLMNOPQRSTUVWXYZ"

/-- Indexing `BASE62[i]` (Python sequence indexing; in the source the index
is always `num % 62`, hence in range, so the default is never used). -/
def base62Char (i : Nat) : Char :=
  BASE62.data.getD i '?'

/-- Python `BASE62.index(char)`: index of the first occurrence of `char`,
`none` standing for the `ValueError` raised when `char` is absent. -/
def base62Index (c : Char) : Option Nat :=
  BASE62.data.findIdx? (· = c)

/-- The digit list (least-significant first) built by the `while num:` loop
of `Base62Field.to_base62`: append `num % 62`, then `num //= 62`. -/
def to_base62_digits (num : Nat) : List Nat :=
  if h : num = 0 then []
  else (num % 62) :: to_base62_digits (num / 62)
decreasing_by exact Nat.div_lt_self (Nat.pos_of_ne_zero h) (by norm_num)

/-- `Base62Field.to_base62`: `0` maps to `BASE62[0]`; otherwise the digit
characters are collected least-significant first and reversed. -/
def to_base62 (num : Nat) : String :=
  if num = 0 then String.mk [base62Char 0]
  else String.mk ((to_base62_digits num).map base62Char).reverse

/-- `Base62Field.from_base62`: left fold `num = num * 62 + BASE62.index(char)`
over the characters; `none` models the `ValueError` escaping from
`BASE62.index` on a character outside the alphabet. -/
def from_base62 (short_code : String) : Option Nat :=
  short_code.data.foldlM
    (fun num c => (base62Index c).map (fun i => num * 62 + i)) 0

lemma base62Index_base62Char :
    ∀ i : Fin 62, base62Index (base62Char i.1) = some i.1 := by decide

lemma to_base62_digits_lt (n : Nat) :
    ∀ d ∈ to_base62_digits n, d < 62 := by
  induction n using Nat.strong_induction_on with
  | _ n ih =>
    rw [to_base62_digits]
    split
    · simp
    · rename_i h
      intro d hd
      rcases List.mem_cons.mp hd with rfl | hmem
      · exact Nat.mod_lt _ (by norm_num)
      · exact ih (n / 62)
          (Nat.div_lt_self (Nat.pos_of_ne_zero h) (by norm_num)) d hmem

lemma to_base62_digits_ne_nil {n : Nat} (h : n ≠ 0) :
    to_base62_digits n ≠ [] := by
  rw [to_base62_digits]
  simp [h]

lemma foldl_reverse_to_base62_digits (n : Nat) :
    ∀ acc : Nat,
      (to_base62_digits n).reverse.foldl (fun a d => a * 62 + d) acc
        = acc * 62 ^ (to_base62_digits n).length + n := by
  induction n using Nat.strong_induction_on with
  | _ n ih =>
    intro acc
    rw [to_base62_digits]
    split
    · rename_i h
      subst h
      simp
    · rename_i h
      rw [List.reverse_cons, List.foldl_append,
        ih (n / 62) (Nat.div_lt_self (Nat.pos_of_ne_zero h) (by norm_num))]
      simp only [List.foldl_cons, List.foldl_nil, List.length_cons]
      have hmod : 62 * (n / 62) + n % 62 = n := Nat.div_add_mod n 62
      ring_nf
      omega

lemma foldlM_map_base62Char (ds : List Nat) (hds : ∀ d ∈ ds, d < 62) :
    ∀ acc : Nat,
      (ds.map base62Char).foldlM
          (fun num c => (base62Index c).map (fun i => num * 62 + i)) acc
        = some (ds.foldl (fun a d => a * 62 + d) acc) := by
  induction ds with
  | nil => intro acc; rfl
  | cons d ds ihds =>
    intro acc
    have hd : d < 62 := hds d (List.mem_cons_self d ds)
    have hrest : ∀ x ∈ ds, x < 62 :=
      fun x hx => hds x (List.mem_cons_of_mem d hx)
    simp only [List.map_cons, List.foldlM_cons,
      base62Index_base62Char ⟨d, hd⟩, Option.map_some]
    exact ihds hrest (acc * 62 + d)

/-- C1: for every non-negative integer `n`, decoding the base62 encoding of
`n` returns `n` (no error): `from_base62 (to_base62 n) = some n`. -/
theorem from_base62_to_base62 (n : Nat) :
    from_base62 (to_base62 n) = some n := by
  by_cases h : n = 0
  · subst h; rfl
  · unfold from_base62 to_base62
    rw [if_neg h]
    show ((to_base62_digits n).map base62Char).reverse.foldlM
        (fun num c => (base62Index c).map (fun i => num * 62 + i)) 0 = some n
    rw [← List.map_reverse,
      foldlM_map_base62Char _
        (fun d hd => to_base62_digits_lt n d (List.mem_reverse.mp hd)),
      foldl_reverse_to_base62_digits n 0]
    simp

/-- C10: decoding the empty string succeeds and returns `0`, even though no
non-negative integer encodes to the empty string. -/
theorem from_base62_empty_string :
    from_base62 "" = some 0 ∧ ∀ n : Nat, to_base62 n ≠ "" := by
  refine ⟨rfl, fun n heq => ?_⟩
  by_cases h : n = 0
  · subst h
    simp only [to_base62, if_pos rfl] at heq
    have : ([base62Char 0] : List Char) = [] := congrArg String.data heq
    simp at this
  · simp only [to_base62, if_neg h] at heq
    have : ((to_base62_digits n).map base62Char).reverse = ([] : List Char) :=
      congrArg String.data heq
    simp at this
    exact to_base62_digits_ne_nil h this

/-- Outcome of `RecipeViewSet.redirect_to_recipe`. -/
inductive RedirectResult where
  | badRequest (detail : String)
  | notFound
  | redirect (url : String)
deriving DecidableEq

/-- `RecipeViewSet.redirect_to_recipe`: decode the short code, turning a
`ValueError` into a 400 response; otherwise `get_object_or_404` on the
recipe id and redirect to the recipe page. `recipes` is the set of stored
recipe ids. -/
def redirect_to_recipe (recipes : List Nat) (short_code : String) :
    RedirectResult :=
  match from_base62 short_code with
  | none => .badRequest "Неверный короткий код."
  | some recipe_id =>
    if recipe_id ∈ recipes then
      .redirect ("/recipes/" ++ toString recipe_id ++ "/")
    else .notFound

lemma base62Index_eq_none {c : Char} (h : c ∉ BASE62.data) :
    base62Index c = none := by
  rw [base62Index, List.findIdx?_eq_none_iff]
  intro x hx
  simp only [decide_eq_false_iff_not]
  intro hxc
  exact h (hxc ▸ hx)

lemma foldlM_eq_none_of_bad_char (l : List Char)
    (h : ∃ c ∈ l, base62Index c = none) :
    ∀ acc : Nat,
      l.foldlM (fun num c => (base62Index c).map (fun i => num * 62 + i)) acc
        = none := by
  induction l with
  | nil => rcases h with ⟨c, hc, _⟩; exact absurd hc (List.not_mem_nil c)
  | cons c l ihl =>
    intro acc
    rcases hcase : base62Index c with _ | i
    · simp [List.foldlM_cons, hcase]
    · rcases h with ⟨d, hd, hdnone⟩
      rcases List.mem_cons.mp hd with rfl | hmem
      · rw [hcase] at hdnone; exact absurd hdnone (by simp)
      · simp only [List.foldlM_cons, hcase, Option.map_some, Option.some_bind]
        exact ihl ⟨d, hmem, hdnone⟩ (acc * 62 + i)

/-- C8: decoding any string containing a character outside the 62-symbol
alphabet fails (the `ValueError` from `BASE62.index`), and the short-link
redirect handler turns that failure into a 400 response. -/
theorem from_base62_invalid_char (recipes : List Nat) (s : String)
    (h : ∃ c ∈ s.data, c ∉ BASE62.data) :
    from_base62 s = none ∧
      redirect_to_recipe recipes s = .badRequest "Неверный короткий код." := by
  have hnone : from_base62 s = none := by
    rcases h with ⟨c, hc, hout⟩
    exact foldlM_eq_none_of_bad_char s.data
      ⟨c, hc, base62Index_eq_none hout⟩ 0
  exact ⟨hnone, by rw [redirect_to_recipe, hnone]⟩

/-- Witness for C8 at the concrete short code "!". -/
theorem from_base62_invalid_char_witness :
    from_base62 "!" = none ∧
      redirect_to_recipe [] "!" = .badRequest "Неверный короткий код." :=
  from_base62_invalid_char [] "!" ⟨'!', by decide, by decide⟩

/-- A recipe as seen by the download handlers: its name and its
`(ingredient name, amount)` rows. A user's shopping cart is a list of
these (one per `ShoppingCart` row of that user). -/
structure CartRecipe where
  name : String
  ingredients : List (String × Nat)
deriving DecidableEq

/-- Python `', '.join(ingredient.name for ingredient in
recipe.ingredients.all())`. -/
def joined_ingredients (r : CartRecipe) : String :=
  String.intercalate ", " (r.ingredients.map Prod.fst)

/-- `RecipeViewSet._download_csv`: the sequence of rows passed to
`writer.writerow` — the header `['Recipe Name', 'Ingredients']` followed by
one row per cart item. -/
def download_csv_rows (items : List CartRecipe) : List (List String) :=
  items.foldl
    (fun rows item => rows ++ [[item.name, joined_ingredients item]])
    [["Recipe Name", "Ingredients"]]

/-- `RecipeViewSet._download_txt`: the concatenated text content. -/
def download_txt_content (items : List CartRecipe) : String :=
  String.join (items.map (fun item =>
    "Recipe: " ++ item.name ++ "\nIngredients: "
      ++ joined_ingredients item ++ "\n\n"))

/-- `RecipeViewSet._download_pdf`: the sequence of text lines drawn on the
canvas (the title, then two lines per cart item; page layout elided). -/
def download_pdf_lines (items : List CartRecipe) : List String :=
  "Shopping Cart" ::
    items.foldl
      (fun lines item =>
        lines ++ ["Recipe: " ++ item.name,
          "Ingredients: " ++ joined_ingredients item])
      []

/-- Outcome of `RecipeViewSet.download_shopping_cart`. -/
inductive DownloadResult where
  | notFound (detail : String)
  | badRequest (detail : String)
  | csvFile (rows : List (List String))
  | txtFile (content : String)
  | pdfFile (lines : List String)
deriving DecidableEq

/-- Python `str.lower()` (character-wise lowercasing; the format values
compared against are ASCII). -/
def str_lower (s : String) : String :=
  String.mk (s.data.map Char.toLower)

/-- `RecipeViewSet.download_shopping_cart`: empty-cart check first, then
`request.query_params.get('format', 'csv').lower()` dispatch, else a 400
"Unsupported file format" response. -/
def download_shopping_cart (cart : List CartRecipe)
    (formatParam : Option String) : DownloadResult :=
  if cart.isEmpty then .notFound "Shopping cart is empty"
  else
    let file_format := str_lower (formatParam.getD "csv")
    if file_format = "csv" then .csvFile (download_csv_rows cart)
    else if file_format = "txt" then .txtFile (download_txt_content cart)
    else if file_format = "pdf" then .pdfFile (download_pdf_lines cart)
    else .badRequest "Unsupported file format"

/-- Lexicographic comparison of character lists by code point (how Python
compares strings). -/
def lexLe : List Char → List Char → Bool
  | [], _ => true
  | _ :: _, [] => false
  | a :: as, b :: bs =>
    if a < b then true else if b < a then false else lexLe as bs

/-- Name order used by the spec's "sorted by ingredient name ascending". -/
def nameLe (a b : String) : Bool :=
  lexLe a.data b.data

/-- Insertion into a list of rows kept sorted by name ascending. -/
def insertRow (x : String × Nat) : List (String × Nat) → List (String × Nat)
  | [] => [x]
  | y :: ys => if nameLe x.1 y.1 then x :: y :: ys else y :: insertRow x ys

/-- Insertion sort of rows by name ascending. -/
def sortByName (rows : List (String × Nat)) : List (String × Nat) :=
  rows.foldr insertRow []

/-- Modelled from the spec: the ingredient aggregator described in §4.2 —
one row per distinct ingredient name across every recipe in the cart,
amounts summed, sorted by ingredient name ascending. No function in the
source computes this; it is stated here only to compare the actual
download output against it. -/
def spec_aggregate (items : List CartRecipe) : List (String × Nat) :=
  let pairs := (items.map (fun r => r.ingredients)).flatten
  let names := (pairs.map Prod.fst).dedup
  sortByName (names.map (fun n =>
    (n, ((pairs.filter (fun p => p.1 = n)).map Prod.snd).sum)))

lemma foldl_append_singleton {α β : Type} (f : α → β) (l : List α) :
    ∀ init : List β,
      l.foldl (fun rows x => rows ++ [f x]) init = init ++ l.map f := by
  induction l with
  | nil => intro init; simp
  | cons x l ihl => intro init; simp [ihl]

/-- C2 counterexample: at the spec's own example cart
(recipeA: flour 200, sugar 50; recipeB: flour 100) the CSV download's data
rows are not the aggregated, summed, name-sorted rows the claim describes. -/
theorem download_csv_not_aggregated :
    (download_csv_rows
        [⟨"recipeA", [("flour", 200), ("sugar", 50)]⟩,
         ⟨"recipeB", [("flour", 100)]⟩]).tail
      ≠ (spec_aggregate
          [⟨"recipeA", [("flour", 200), ("sugar", 50)]⟩,
           ⟨"recipeB", [("flour", 100)]⟩]).map
          (fun p => [p.1, toString p.2]) := by decide

/-- C2 as amended: the shopping-cart CSV download performs no aggregation —
it emits the header row `['Recipe Name', 'Ingredients']` and then, for each
cart recipe in cart order, one row holding the recipe name and its
ingredient names joined by ", "; amounts are never summed and rows are not
sorted by ingredient name. -/
theorem download_csv_rows_per_recipe (items : List CartRecipe) :
    download_csv_rows items
      = ["Recipe Name", "Ingredients"]
        :: items.map (fun item => [item.name, joined_ingredients item]) := by
  rw [download_csv_rows, foldl_append_singleton]
  rfl

/-- `FileFactory._generate_csv` (`core/utils.py`): the sequence of rows
passed to `writer.writerow` — header `['Ingredient', 'Total Amount']`, then
one row per aggregated `(name, total_amount)` entry. -/
def generate_csv_rows (ingredients : List (String × Nat)) :
    List (List String) :=
  ingredients.foldl
    (fun rows ing => rows ++ [[ing.1, toString ing.2]])
    [["Ingredient", "Total Amount"]]

/-- C3: for every non-empty entry sequence, the CSV export begins with the
header row `Ingredient,Total Amount` and is followed by exactly one data
row per `(name, total)` entry. -/
theorem generate_csv_header_then_rows (ingredients : List (String × Nat))
    (_h : ingredients ≠ []) :
    (generate_csv_rows ingredients).head?
        = some ["Ingredient", "Total Amount"] ∧
      (generate_csv_rows ingredients).tail
        = ingredients.map (fun ing => [ing.1, toString ing.2]) := by
  rw [generate_csv_rows, foldl_append_singleton]
  exact ⟨rfl, rfl⟩

/-- Witness for C3 at the spec's two-entry aggregate. -/
theorem generate_csv_header_then_rows_witness :
    (generate_csv_rows [("flour", 300), ("sugar", 50)]).head?
        = some ["Ingredient", "Total Amount"] ∧
      (generate_csv_rows [("flour", 300), ("sugar", 50)]).tail
        = [["flour", "300"], ["sugar", "50"]] :=
  generate_csv_header_then_rows [("flour", 300), ("sugar", 50)] (by decide)

/-- C7: for an empty shopping cart, `download_shopping_cart` returns the
404 "Shopping cart is empty" response — never a file — whatever format
parameter was requested. -/
theorem download_shopping_cart_empty (formatParam : Option String) :
    download_shopping_cart [] formatParam
      = .notFound "Shopping cart is empty" := rfl

/-- C9 counterexample: the handler lowercases the format parameter, so the
supplied value "CSV" — outside the literal set {csv, txt, pdf} — yields a
CSV file rather than the unsupported-format 400; and on an empty cart an
unknown format yields the 404 empty-cart response, not a 400. -/
theorem download_format_counterexample :
    (("CSV" : String) ∉ (["csv", "txt", "pdf"] : List String) ∧
        download_shopping_cart [⟨"recipeB", [("flour", 100)]⟩] (some "CSV")
          = .csvFile
              (download_csv_rows [⟨"recipeB", [("flour", 100)]⟩])) ∧
      (("docx" : String) ∉ (["csv", "txt", "pdf"] : List String) ∧
        download_shopping_cart [] (some "docx")
          = .notFound "Shopping cart is empty") := by
  refine ⟨⟨by decide, ?_⟩, ⟨by decide, rfl⟩⟩
  rfl

/-- C9 as amended: for a user with a non-empty shopping cart, every
supplied format value whose lowercased form is outside {csv, txt, pdf}
produces the 400 "Unsupported file format" error (format values differing
from a supported one only in case are served that format, and an empty
cart yields the 404 empty-cart response instead). -/
theorem download_unsupported_format (cart : List CartRecipe)
    (format : String) (hcart : cart ≠ [])
    (hfmt : str_lower format ∉ (["csv", "txt", "pdf"] : List String)) :
    download_shopping_cart cart (some format)
      = .badRequest "Unsupported file format" := by
  rw [download_shopping_cart, if_neg (by simp [hcart])]
  simp only [Option.getD]
  rw [if_neg (by intro h; exact hfmt (by simp [h])),
    if_neg (by intro h; exact hfmt (by simp [h])),
    if_neg (by intro h; exact hfmt (by simp [h]))]

/-- Witness for C9 as amended at a one-recipe cart and format "docx". -/
theorem download_unsupported_format_witness :
    download_shopping_cart [⟨"recipeB", [("flour", 100)]⟩] (some "docx")
      = .badRequest "Unsupported file format" :=
  download_unsupported_format [⟨"recipeB", [("flour", 100)]⟩] "docx"
    (by decide) (by decide)

/-- HTTP method of the relation actions (each accepts POST and DELETE). -/
inductive Method where
  | post
  | delete
deriving DecidableEq

/-- Response of the relation actions (payload bodies elided; `badRequest`
keeps the detail message). -/
inductive RelResp where
  | created
  | noContent
  | badRequest (detail : String)
deriving DecidableEq

/-- `RecipeViewSet.favorite`: `favs` is the `Favorite` table as
`(user id, recipe id)` rows; returns the response and the new table.
POST: 400 if the pair exists, else create; DELETE: 400 if absent, else
delete the row found by `filter(...).first()`. -/
def favorite_action (favs : List (Nat × Nat)) (user recipe : Nat)
    (m : Method) : RelResp × List (Nat × Nat) :=
  match m with
  | .post =>
    if (user, recipe) ∈ favs then
      (.badRequest "Рецепт уже в избранном", favs)
    else (.created, favs ++ [(user, recipe)])
  | .delete =>
    if (user, recipe) ∈ favs then (.noContent, favs.erase (user, recipe))
    else (.badRequest "Рецепта нет в избранном", favs)

/-- `RecipeViewSet.shopping_cart`: same structure as `favorite` over the
`ShoppingCart` table. -/
def shopping_cart_action (cart : List (Nat × Nat)) (user recipe : Nat)
    (m : Method) : RelResp × List (Nat × Nat) :=
  match m with
  | .post =>
    if (user, recipe) ∈ cart then
      (.badRequest "Рецепт уже в корзине", cart)
    else (.created, cart ++ [(user, recipe)])
  | .delete =>
    if (user, recipe) ∈ cart then (.noContent, cart.erase (user, recipe))
    else (.badRequest "Рецепта нет в корзине", cart)

/-- C4: adding a favorite or shopping-cart relation for an existing
(user, recipe) pair fails with the duplicate 400 and leaves the stored
relations unchanged (so no second row is created), and removing an absent
pair fails with the not-found 400, also leaving the relations unchanged. -/
theorem relation_duplicate_and_not_found (rels : List (Nat × Nat))
    (user recipe : Nat) :
    ((user, recipe) ∈ rels →
      favorite_action rels user recipe .post
          = (.badRequest "Рецепт уже в избранном", rels) ∧
        shopping_cart_action rels user recipe .post
          = (.badRequest "Рецепт уже в корзине", rels)) ∧
      ((user, recipe) ∉ rels →
        favorite_action rels user recipe .delete
            = (.badRequest "Рецепта нет в избранном", rels) ∧
          shopping_cart_action rels user recipe .delete
            = (.badRequest "Рецепта нет в корзине", rels)) := by
  constructor
  · intro hmem
    constructor
    · rw [favorite_action, if_pos hmem]
    · rw [shopping_cart_action, if_pos hmem]
  · intro hmem
    constructor
    · rw [favorite_action, if_neg hmem]
    · rw [shopping_cart_action, if_neg hmem]

/-- Witness for C4: duplicate add on the stored pair (1, 2), and removal
of the absent pair (1, 2) from an empty table. -/
theorem relation_duplicate_and_not_found_witness :
    (favorite_action [(1, 2)] 1 2 .post
        = (.badRequest "Рецепт уже в избранном", [(1, 2)]) ∧
      shopping_cart_action [(1, 2)] 1 2 .post
        = (.badRequest "Рецепт уже в корзине", [(1, 2)])) ∧
      (favorite_action [] 1 2 .delete
          = (.badRequest "Рецепта нет в избранном", []) ∧
        shopping_cart_action [] 1 2 .delete
          = (.badRequest "Рецепта нет в корзине", [])) :=
  ⟨(relation_duplicate_and_not_found [(1, 2)] 1 2).1 (by decide),
    (relation_duplicate_and_not_found [] 1 2).2 (by decide)⟩

/-- `UserViewSet.manage_subscription`: `follows` is the `Follow` table as
`(user id, following id)` rows. The self-subscription check precedes the
POST/DELETE branches. -/
def manage_subscription (follows : List (Nat × Nat))
    (user following : Nat) (m : Method) : RelResp × List (Nat × Nat) :=
  if user = following then
    (.badRequest "Невозможно подписаться на самого себя.", follows)
  else
    match m with
    | .post =>
      if (user, following) ∈ follows then
        (.badRequest "Вы уже подписаны на этого пользователя.", follows)
      else (.created, follows ++ [(user, following)])
    | .delete =>
      if (user, following) ∈ follows then
        (.noContent, follows.erase (user, following))
      else (.badRequest "Вы не подписаны на этого пользователя.", follows)

/-- C5: a subscribe (or unsubscribe) request targeting the requester
itself is rejected with the self-follow 400 before any write, leaving the
Follow table unchanged; and no sequence of requests ever stores a Follow
row whose follower equals its followed. -/
theorem manage_subscription_self (follows : List (Nat × Nat))
    (user following : Nat) (m : Method) :
    (user = following →
      manage_subscription follows user following m
        = (.badRequest "Невозможно подписаться на самого себя.", follows)) ∧
      ((∀ p ∈ follows, p.1 ≠ p.2) →
        ∀ p ∈ (manage_subscription follows user following m).2,
          p.1 ≠ p.2) := by
  constructor
  · intro heq
    rw [manage_subscription.eq_def, if_pos heq]
  · intro hinv p hp
    by_cases heq : user = following
    · rw [manage_subscription.eq_def, if_pos heq] at hp
      exact hinv p hp
    · cases m with
      | post =>
        by_cases hmem : (user, following) ∈ follows
        · simp only [manage_subscription.eq_def, if_neg heq,
            if_pos hmem] at hp
          exact hinv p hp
        · simp only [manage_subscription.eq_def, if_neg heq,
            if_neg hmem] at hp
          rcases List.mem_append.mp hp with hold | hnew
          · exact hinv p hold
          · rcases List.mem_singleton.mp hnew with rfl
            exact heq
      | delete =>
        by_cases hmem : (user, following) ∈ follows
        · simp only [manage_subscription.eq_def, if_neg heq,
            if_pos hmem] at hp
          exact hinv p (List.mem_of_mem_erase hp)
        · simp only [manage_subscription.eq_def, if_neg heq,
            if_neg hmem] at hp
          exact hinv p hp

/-- Witness for C5: a self-subscription attempt by user 3 against a table
holding (1, 2) is rejected with the table unchanged, and the row (1, 3)
created by a legitimate subscription is not a self-follow. -/
theorem manage_subscription_self_witness :
    manage_subscription [(1, 2)] 3 3 .post
        = (.badRequest "Невозможно подписаться на самого себя.", [(1, 2)]) ∧
      ((1, 3) : Nat × Nat).1 ≠ ((1, 3) : Nat × Nat).2 :=
  ⟨(manage_subscription_self [(1, 2)] 3 3 .post).1 rfl,
    (manage_subscription_self [(1, 2)] 1 3 .post).2 (by decide)
      (1, 3) (by decide)⟩

/-- `RecipeWriteSerializer._find_double`: collect the ids occurring more
than once (the keys of the `Counter` with count > 1) and raise a
`ValidationError` when there are any. -/
def find_double (ids : List Nat) : Except String (List Nat) :=
  let duplicates := ids.dedup.filter (fun i => 1 < ids.count i)
  if duplicates = [] then .ok ids
  else .error s!"Есть дубли: {duplicates}."

/-- The validation run on a recipe write payload: `validate_tags` and
`validate_ingredients` (both `_find_double` on the submitted ids — for
ingredients, on the `id` of each (id, amount) entry), then the
object-level `validate` rejecting an empty ingredient or tag list. -/
def validate_payload (tags : List Nat) (ingredients : List (Nat × Nat)) :
    Except String Unit := do
  let _ ← find_double tags
  let _ ← find_double (ingredients.map Prod.fst)
  if ingredients = [] then
    throw "Добавьте хотя бы 1 ингредиент."
  else if tags = [] then
    throw "Добавьте хотя бы 1 тег."
  else
    return ()

lemma find_double_error_of_repeat {ids : List Nat} {x : Nat}
    (hx : 2 ≤ ids.count x) : ∃ m, find_double ids = .error m := by
  have hmem : x ∈ ids := List.count_pos_iff.mp (by omega)
  have hfilter : x ∈ ids.dedup.filter (fun i => 1 < ids.count i) := by
    rw [List.mem_filter]
    exact ⟨List.mem_dedup.mpr hmem, by simp; omega⟩
  have hne : ids.dedup.filter (fun i => 1 < ids.count i) ≠ [] :=
    List.ne_nil_of_mem hfilter
  exact ⟨_, by rw [find_double, if_neg hne]⟩

/-- C6: a recipe create/update payload with zero tags, zero ingredients, a
tag id submitted at least twice, or an ingredient id submitted at least
twice (regardless of the amounts attached) is rejected with a
`ValidationError`. -/
theorem validate_payload_rejects (tags : List Nat)
    (ingredients : List (Nat × Nat))
    (h : tags = [] ∨ ingredients = []
      ∨ (∃ t, 2 ≤ tags.count t)
      ∨ (∃ i, 2 ≤ (ingredients.map Prod.fst).count i)) :
    ∃ m, validate_payload tags ingredients = .error m := by
  rcases htags : find_double tags with mt | lt
  · exact ⟨mt, by rw [validate_payload, htags]; rfl⟩
  rcases hings : find_double (ingredients.map Prod.fst) with mi | li
  · exact ⟨mi, by rw [validate_payload, htags, hings]; rfl⟩
  rcases h with htag0 | hing0 | ⟨t, ht⟩ | ⟨i, hi⟩
  · by_cases hing0 : ingredients = []
    · exact ⟨"Добавьте хотя бы 1 ингредиент.",
        by rw [validate_payload, htags, hings]; simp only [hing0, if_pos]; rfl⟩
    · exact ⟨"Добавьте хотя бы 1 тег.",
        by rw [validate_payload, htags, hings]; simp only [hing0, htag0, if_neg, if_pos]; rfl⟩
  · exact ⟨"Добавьте хотя бы 1 ингредиент.",
      by rw [validate_payload, htags, hings]; simp only [hing0, if_pos]; rfl⟩
  · rcases find_double_error_of_repeat ht with ⟨m, hm⟩
    rw [hm] at htags
    exact absurd htags (by simp)
  · rcases find_double_error_of_repeat hi with ⟨m, hm⟩
    rw [hm] at hings
    exact absurd hings (by simp)

/-- Witness for C6: a payload whose two ingredient entries share the id 5
with different amounts is rejected. -/
theorem validate_payload_rejects_witness :
    ∃ m, validate_payload [1] [(5, 2), (5, 7)] = .error m :=
  validate_payload_rejects [1] [(5, 2), (5, 7)]
    (Or.inr (Or.inr (Or.inr ⟨5, by decide⟩)))

end Foodgram
